import Mathlib

/-!
Shallow embedding of the BANQUELTY back-end booking service and the
service-provider quote/invoice router, with theorems about the claims
on booking pricing, status transitions, deletion, and the quote
lifecycle.  Handlers are modelled as pure functions from the request
data (principal, body, current time, stored records) to an Except
result; monetary values are rationals, ids and millisecond timestamps
are integers.
-/

namespace Banquet

/-- Authenticated caller identity as produced by the JWT middleware:
id and role (user, vendor, admin, service_provider). -/
structure Principal where
  id : Int
  role : String
deriving Repr, DecidableEq

/-- Error responses produced by the handlers (status code collapsed to
the taxonomy used by the routes: 400 bad request, 403 forbidden). -/
inductive ApiError where
  | badRequest (msg : String)
  | forbidden (msg : String)
deriving Repr, DecidableEq

/-- One additionalServices item; the price key may be missing on an
item, in which case the handler treats it as 0 via price-or-zero. -/
structure Service where
  price : Option ℚ
deriving Repr, DecidableEq

/-- JavaScript falsiness of an optional numeric field: absent (undefined)
and 0 are falsy. -/
abbrev OptRatFalsy (x : Option ℚ) : Prop := x = none ∨ x = some 0

/-- JavaScript falsiness of an optional integer id field. -/
abbrev OptIntFalsy (x : Option Int) : Prop := x = none ∨ x = some 0

/-- JavaScript falsiness of an optional string field: absent and the
empty string are falsy. -/
abbrev OptStrFalsy (x : Option String) : Prop := x = none ∨ x = some ""

/-- JavaScript parseInt on a numeric value: truncation toward zero. -/
def jsTrunc (q : ℚ) : Int := if 0 ≤ q then ⌊q⌋ else ⌈q⌉

/-- Sum the handler adds for additionalServices: when the field is an
array, reduce with sum + (price or 0); when absent or not an array,
nothing is added. -/
def svcSum : Option (List Service) → ℚ
  | some l => (l.map (fun s => s.price.getD 0)).sum
  | none => 0

/-- Request body of POST /api/booking/bookings as destructured by the
handler.  Numeric fields are modelled by their numeric value (none =
absent), date by its parsed millisecond timestamp.  The body may also
carry a client-supplied totalPrice, which the handler never reads. -/
structure CreateBody where
  userId : Option Int
  venueId : Option Int
  vendorId : Option Int
  date : Option Int
  guestCount : Option ℚ
  guests : Option ℚ
  pricingType : Option String
  flatPrice : Option ℚ
  perHeadPrice : Option ℚ
  minGuests : Option ℚ
  additionalServices : Option (List Service)
  status : Option String
  notes : Option String
  totalPrice : Option ℚ
deriving Repr, DecidableEq

/-- Record passed to Booking.create by the handler (the persisted
booking row).  minGuests is kept optional-rational since the flat
branch stores the raw body value while the per-head branch stores the
parsed integer. -/
structure BookingRow where
  userId : Int
  venueId : Int
  vendorId : Int
  date : Int
  guestCount : Int
  pricingType : String
  flatPrice : Option ℚ
  perHeadPrice : Option ℚ
  minGuests : Option ℚ
  additionalServices : Option (List Service)
  totalPrice : ℚ
  status : String
deriving Repr, DecidableEq

/-- Stage 1 of the create handler: target user resolution.  Non-admin
callers always book for themselves; an admin must name a (truthy)
target userId; the resolved id must itself be truthy. -/
def resolveUserId (user : Principal) (body : CreateBody) : Except ApiError Int :=
  let requestedUserId : Option Int :=
    if user.role = "admin" then body.userId else some user.id
  if user.role = "admin" ∧ OptIntFalsy body.userId then
    .error (.badRequest "userId is required when admin creates booking for a user")
  else if OptIntFalsy requestedUserId then
    .error (.badRequest "userId is required")
  else .ok (requestedUserId.getD 0)

/-- Stage 2: required venueId and vendorId, and the cross-service
check that the supplied vendorId matches the vendor id the venue
service reports for the venue. -/
def checkVenueVendor (body : CreateBody) (venueVendorId : Int) :
    Except ApiError (Int × Int) :=
  if OptIntFalsy body.venueId then .error (.badRequest "venueId is required")
  else if OptIntFalsy body.vendorId then .error (.badRequest "vendorId is required")
  else if venueVendorId ≠ body.vendorId.getD 0 then
    .error (.badRequest "vendorId does not match the venue vendor")
  else .ok (body.venueId.getD 0, body.vendorId.getD 0)

/-- Stage 3: guests-to-guestCount fallback, then the guestCount
validation: present, and parseInt of it strictly positive. -/
def resolveGuestCount (body : CreateBody) : Except ApiError Int :=
  let gcField : Option ℚ :=
    if OptRatFalsy body.guestCount ∧ ¬ OptRatFalsy body.guests then body.guests
    else body.guestCount
  match gcField with
  | none => .error (.badRequest "Valid guestCount is required")
  | some gq =>
    if gq = 0 ∨ jsTrunc gq ≤ 0 then .error (.badRequest "Valid guestCount is required")
    else .ok (jsTrunc gq)

/-- Stage 4: date presence check, then the future check; the source
rejects only bookingDate strictly earlier than the current instant. -/
def checkDate (body : CreateBody) (now : Int) : Except ApiError Int :=
  match body.date with
  | none => .error (.badRequest "Booking date is required")
  | some d =>
    if d < now then .error (.badRequest "Booking date must be in the future")
    else .ok d

/-- Stage 5: pricing validation by pricingType, the per-head
minimum-guest rule, the additionalServices sum, and the record passed
to Booking.create, whose status is the client status defaulted to
pending. -/
def priceAndBuildRow (body : CreateBody) (userId venueId vendorId guestCount d : Int) :
    Except ApiError BookingRow :=
  let pt := body.pricingType.getD "flat"
  let storedStatus : String :=
    if OptStrFalsy body.status then "pending" else body.status.getD ""
  if pt = "flat" then
    match body.flatPrice with
    | none => .error (.badRequest "flatPrice is required for flat pricing type")
    | some fp =>
      if fp ≤ 0 then
        .error (.badRequest "flatPrice is required for flat pricing type")
      else
        .ok { userId := userId
              venueId := venueId
              vendorId := vendorId
              date := d
              guestCount := guestCount
              pricingType := pt
              flatPrice := some fp
              perHeadPrice := body.perHeadPrice
              minGuests := body.minGuests
              additionalServices := body.additionalServices
              totalPrice := fp + svcSum body.additionalServices
              status := storedStatus }
  else if pt = "per_head" then
    match body.perHeadPrice with
    | none => .error (.badRequest "perHeadPrice is required for per_head pricing type")
    | some r =>
      if r ≤ 0 then
        .error (.badRequest "perHeadPrice is required for per_head pricing type")
      else
        let m : Int :=
          if OptRatFalsy body.minGuests then 1
          else jsTrunc (body.minGuests.getD 0)
        if guestCount < m then
          .error (.badRequest "Guest count below minimum required")
        else
          .ok { userId := userId
                venueId := venueId
                vendorId := vendorId
                date := d
                guestCount := guestCount
                pricingType := pt
                flatPrice := body.flatPrice
                perHeadPrice := some r
                minGuests := some (m : ℚ)
                additionalServices := body.additionalServices
                totalPrice := (guestCount : ℚ) * r + svcSum body.additionalServices
                status := storedStatus }
  else .error (.badRequest "Invalid pricingType")

/-- Handler of POST /api/booking/bookings, after authentication and
after the venue-service lookup returned venueVendorId for the given
venueId.  The stages run in the source order, each earlier failure
short-circuiting the request with its error response. -/
def createBooking (user : Principal) (body : CreateBody) (venueVendorId : Int)
    (now : Int) : Except ApiError BookingRow :=
  match resolveUserId user body with
  | .error e => .error e
  | .ok userId =>
    match checkVenueVendor body venueVendorId with
    | .error e => .error e
    | .ok ids =>
      match resolveGuestCount body with
      | .error e => .error e
      | .ok guestCount =>
        match checkDate body now with
        | .error e => .error e
        | .ok d => priceAndBuildRow body userId ids.1 ids.2 guestCount d

/-- Success inversion for createBooking: a created booking comes from
all five stages succeeding in order. -/
theorem createBooking_ok_iff (user : Principal) (body : CreateBody)
    (venueVendorId now : Int) (b : BookingRow) :
    createBooking user body venueVendorId now = .ok b ↔
      ∃ u ids gc d, resolveUserId user body = .ok u ∧
        checkVenueVendor body venueVendorId = .ok ids ∧
        resolveGuestCount body = .ok gc ∧ checkDate body now = .ok d ∧
        priceAndBuildRow body u ids.1 ids.2 gc d = .ok b := by
  unfold createBooking
  cases hu : resolveUserId user body with
  | error e => simp [hu]
  | ok u =>
    cases hv : checkVenueVendor body venueVendorId with
    | error e => simp [hu, hv]
    | ok ids =>
      cases hg : resolveGuestCount body with
      | error e => simp [hu, hv, hg]
      | ok gc =>
        cases hd : checkDate body now with
        | error e => simp [hu, hv, hg, hd]
        | ok d => simp [hu, hv, hg, hd]

/-- Ownership check of the requireBookingOwnership middleware: admin,
or the booking user (guarded by JS truthiness of the stored id), or a
vendor whose id equals the booking vendorId. -/
def CanAccessBooking (user : Principal) (b : BookingRow) : Prop :=
  user.role = "admin" ∨ (b.userId ≠ 0 ∧ b.userId = user.id) ∨
    (user.role = "vendor" ∧ b.vendorId ≠ 0 ∧ b.vendorId = user.id)

instance (user : Principal) (b : BookingRow) : Decidable (CanAccessBooking user b) := by
  unfold CanAccessBooking
  infer_instance

/-- Day count the cancellation policy computes:
Math.ceil((bookingDate - currentDate) / (1000*60*60*24)), with both
instants in milliseconds.  Written with integer floor division so the
definition is kernel-computable; daysDifference_eq_ceil establishes
the ceiling reading used by the source. -/
def daysDifference (bookingDate now : Int) : Int :=
  -((now - bookingDate) / 86400000)

/-- Integer form of daysDifference equals the ceiling of the exact
rational day difference, matching Math.ceil in the source. -/
theorem daysDifference_eq_ceil (d n : Int) :
    daysDifference d n = ⌈(((d : ℚ) - (n : ℚ)) / 86400000 : ℚ)⌉ := by
  have h : ⌈(((d : ℚ) - (n : ℚ)) / 86400000 : ℚ)⌉
      = -⌊-((((d : ℚ) - (n : ℚ)) / 86400000 : ℚ))⌋ := by
    rw [← Int.ceil_neg, neg_neg]
  rw [h, daysDifference]
  congr 1
  rw [show -((((d : ℚ) - (n : ℚ)) / 86400000 : ℚ))
      = (((n - d : Int) : ℚ) / ((86400000 : ℕ) : ℚ) : ℚ) by push_cast; ring]
  rw [Rat.floor_intCast_div_natCast]
  norm_num

/-- Ceiling day count below 3 is the same as a raw difference of at
most two days worth of milliseconds. -/
theorem daysDifference_lt_three_iff (d n : Int) :
    daysDifference d n < 3 ↔ (d : ℚ) - (n : ℚ) ≤ 2 * 86400000 := by
  rw [daysDifference_eq_ceil]
  constructor
  · intro h
    have h2 : (⌈(((d : ℚ) - (n : ℚ)) / 86400000 : ℚ)⌉ : Int) ≤ 2 := by omega
    have h3 := Int.ceil_le.mp h2
    rw [div_le_iff₀ (by norm_num : (0 : ℚ) < 86400000)] at h3
    calc (d : ℚ) - n ≤ ((2 : Int) : ℚ) * 86400000 := h3
    _ = 2 * 86400000 := by norm_num
  · intro h
    have h4 : (((d : ℚ) - (n : ℚ)) / 86400000 : ℚ) ≤ ((2 : Int) : ℚ) := by
      rw [div_le_iff₀ (by norm_num : (0 : ℚ) < 86400000)]
      calc (d : ℚ) - n ≤ 2 * 86400000 := h
      _ = ((2 : Int) : ℚ) * 86400000 := by norm_num
    have h5 := Int.ceil_le.mpr h4
    omega

/-- Handler of PUT /api/booking/bookings/:id/status including the
requireBookingOwnership middleware: target-status whitelist, no-op
success on an unchanged status, role gate for the confirmed target,
and the 3-day notice rule for a user cancelling a confirmed booking;
every other passing request updates the stored status. -/
def updateBookingStatus (user : Principal) (b : BookingRow) (newStatus : Option String)
    (now : Int) : Except ApiError BookingRow :=
  if ¬ CanAccessBooking user b then
    .error (.forbidden "You do not have permission to access this booking")
  else
    match newStatus with
    | none => .error (.badRequest "Invalid status value")
    | some ns =>
      if ns ∉ ["pending", "confirmed", "cancelled"] then
        .error (.badRequest "Invalid status value")
      else if b.status = ns then .ok b
      else if ns = "confirmed" then
        if user.role ≠ "admin" ∧ (user.role ≠ "vendor" ∨ b.vendorId ≠ user.id) then
          .error (.forbidden "Only the venue vendor or administrators can confirm bookings")
        else .ok { b with status := ns }
      else if ns = "cancelled" then
        if b.status = "confirmed" ∧ daysDifference b.date now < 3 ∧ user.role = "user" then
          .error (.forbidden "Cannot cancel confirmed booking with less than 3 days notice")
        else .ok { b with status := ns }
      else .ok { b with status := ns }

/-! Booking deletion.  The DELETE handler calls update with status,
deletedBy, deletedAt and deletionReason, but Sequelize set() silently
ignores keys that are not attributes of the model, and the Booking
model defines no deletion attributes; the row is therefore modelled as
a field map and update filters against the model attribute list. -/

/-- Value stored in a booking row field. -/
inductive JVal where
  | num (q : ℚ)
  | str (s : String)
  | services (l : List Service)
deriving Repr, DecidableEq

/-- Stored booking row as a field map (association list). -/
abbrev Row := List (String × JVal)

/-- Read a field of a row. -/
def getField (r : Row) (k : String) : Option JVal :=
  (r.find? (fun p => p.1 = k)).map (fun p => p.2)

/-- Write one field of a row, replacing an existing entry or appending. -/
def setField (r : Row) (k : String) (v : JVal) : Row :=
  if (r.find? (fun p => p.1 = k)).isSome then
    r.map (fun p => if p.1 = k then (k, v) else p)
  else r ++ [(k, v)]

/-- Attributes of the Booking model: the keys of sequelize.define plus
the implicit id and timestamp columns.  There are no deletedBy,
deletedAt or deletionReason attributes. -/
def bookingModelAttributes : List String :=
  ["id", "userId", "venueId", "vendorId", "date", "guestCount", "pricingType",
   "flatPrice", "perHeadPrice", "minGuests", "additionalServices", "totalPrice",
   "status", "createdAt", "updatedAt"]

/-- Sequelize instance.update(partial): set() silently ignores keys
that are not attributes of the model, so only defined attributes are
written to the row. -/
def sequelizeUpdate (attrs : List String) (r : Row) (changes : List (String × JVal)) : Row :=
  changes.foldl (fun acc kv => if kv.1 ∈ attrs then setField acc kv.1 kv.2 else acc) r

/-- True when the row holds a numeric, truthy id under key k equal to
the given principal id (JS: stored.toString() === principal.toString()
guarded by truthiness of the stored value). -/
def rowTruthyIdEq (r : Row) (k : String) (i : Int) : Bool :=
  match getField r k with
  | some (.num q) => ¬ q = 0 ∧ q = (i : ℚ)
  | _ => false

/-- True when the row holds a numeric id under key k equal to the
given principal id (no truthiness guard). -/
def rowIdEq (r : Row) (k : String) (i : Int) : Bool :=
  match getField r k with
  | some (.num q) => q = (i : ℚ)
  | _ => false

/-- Ownership check of the requireBookingOwnership middleware read off
a stored row. -/
def RowOwnership (user : Principal) (r : Row) : Prop :=
  user.role = "admin" ∨ rowTruthyIdEq r "userId" user.id = true ∨
    (user.role = "vendor" ∧ rowTruthyIdEq r "vendorId" user.id = true)

instance (user : Principal) (r : Row) : Decidable (RowOwnership user r) := by
  unfold RowOwnership
  infer_instance

/-- Handler of DELETE /api/booking/bookings/:id including the
ownership middleware: only admin or the booking user may delete; the
soft delete then updates status to cancelled together with deletedBy,
deletedAt and deletionReason through the Sequelize update semantics
(non-attribute keys are dropped). -/
def deleteBooking (user : Principal) (r : Row) (reason : Option String)
    (now : Int) : Except ApiError Row :=
  if ¬ RowOwnership user r then
    .error (.forbidden "You do not have permission to access this booking")
  else if user.role ≠ "admin" ∧ ¬ rowIdEq r "userId" user.id = true then
    .error (.forbidden "Only administrators or the booking owner can delete bookings")
  else
    .ok (sequelizeUpdate bookingModelAttributes r
      [("status", .str "cancelled"),
       ("deletedBy", .num (user.id : ℚ)),
       ("deletedAt", .num (now : ℚ)),
       ("deletionReason",
        .str (if OptStrFalsy reason then "User requested deletion" else reason.getD ""))])

/-! Service-provider quote router: accept, reject and invoice
creation.  Handlers both respond and possibly mutate the stored quote,
so their results carry the response together with the post-state. -/

/-- Line item of a quote. -/
structure QuoteItem where
  itemName : String
  description : Option String
  quantity : ℚ
  unitPrice : ℚ
deriving Repr, DecidableEq

/-- Stored quote record (fields the router reads and writes). -/
structure Quote where
  id : Int
  serviceProviderId : Int
  userId : Int
  customerName : String
  customerEmail : String
  serviceDate : Int
  totalAmount : ℚ
  note : Option String
  status : String
  validUntil : Int
  items : List QuoteItem
deriving Repr, DecidableEq

instance exceptDecEq {ε α : Type} [DecidableEq ε] [DecidableEq α] :
    DecidableEq (Except ε α) := fun
  | .ok a, .ok b =>
    if h : a = b then .isTrue (by rw [h]) else .isFalse (by intro he; cases he; exact h rfl)
  | .ok _, .error _ => .isFalse (by intro he; cases he)
  | .error _, .ok _ => .isFalse (by intro he; cases he)
  | .error e, .error f =>
    if h : e = f then .isTrue (by rw [h]) else .isFalse (by intro he; cases he; exact h rfl)

/-- Response of an accept/reject handler together with the quote state
after the handler ran (the expiry path mutates the quote even though
the response is an error). -/
structure QuoteActionResult where
  resp : Except ApiError Unit
  quote : Quote
deriving Repr, DecidableEq

/-- Handler of POST /api/service-provider/quotes/:id/accept including
the authorizeRole user gate: addressed-user check, sent/viewed status
gate, then the expiry check forcing status to expired, and finally the
acceptance. -/
def acceptQuote (user : Principal) (q : Quote) (now : Int) : QuoteActionResult :=
  if user.role ≠ "user" then
    ⟨.error (.forbidden "Insufficient permissions"), q⟩
  else if q.userId ≠ user.id then
    ⟨.error (.forbidden "You are not authorized to accept this quote"), q⟩
  else if q.status ≠ "sent" ∧ q.status ≠ "viewed" then
    ⟨.error (.badRequest "Cannot accept quote with this status"), q⟩
  else if q.validUntil < now then
    ⟨.error (.badRequest "This quote has expired"), { q with status := "expired" }⟩
  else
    ⟨.ok (), { q with status := "accepted" }⟩

/-- Handler of POST /api/service-provider/quotes/:id/reject including
the authorizeRole user gate: addressed-user check and sent/viewed
status gate, then the rejection is applied; the handler performs no
validUntil check. -/
def rejectQuote (user : Principal) (q : Quote) (_now : Int) : QuoteActionResult :=
  if user.role ≠ "user" then
    ⟨.error (.forbidden "Insufficient permissions"), q⟩
  else if q.userId ≠ user.id then
    ⟨.error (.forbidden "You are not authorized to reject this quote"), q⟩
  else if q.status ≠ "sent" ∧ q.status ≠ "viewed" then
    ⟨.error (.badRequest "Cannot reject quote with this status"), q⟩
  else
    ⟨.ok (), { q with status := "rejected" }⟩

/-- Stored invoice record as created from a quote. -/
structure Invoice where
  id : Int
  quoteId : Int
  serviceProviderId : Int
  userId : Int
  customerName : String
  customerEmail : String
  serviceDate : Int
  totalAmount : ℚ
  status : String
  dueDate : Int
  paymentLink : String
deriving Repr, DecidableEq

/-- Stored invoice line item. -/
structure InvoiceItem where
  invoiceId : Int
  itemName : String
  description : Option String
  quantity : ℚ
  unitPrice : ℚ
deriving Repr, DecidableEq

/-- Persistent state the invoice route touches: the quote, the invoice
and invoice-item tables, and the id the store would assign to the next
created invoice. -/
structure SPState where
  quote : Quote
  nextInvoiceId : Int
  invoices : List Invoice
  invoiceItems : List InvoiceItem
deriving Repr, DecidableEq

/-- Response of the invoice handler together with the post-state. -/
structure InvoiceResult where
  resp : Except ApiError Unit
  state : SPState
deriving Repr, DecidableEq

/-- Invoice built from a quote by the invoice route: pending status,
due in 7 days, payment link derived from the quote id. -/
def invoiceOfQuote (q : Quote) (invId : Int) (now : Int) : Invoice :=
  { id := invId
    quoteId := q.id
    serviceProviderId := q.serviceProviderId
    userId := q.userId
    customerName := q.customerName
    customerEmail := q.customerEmail
    serviceDate := q.serviceDate
    totalAmount := q.totalAmount
    status := "pending"
    dueDate := now + 7 * 86400000
    paymentLink := "/payment/" ++ toString q.id }

/-- Invoice items copied from the quote items. -/
def invoiceItemsOfQuote (q : Quote) (invId : Int) : List InvoiceItem :=
  q.items.map (fun it =>
    { invoiceId := invId
      itemName := it.itemName
      description := it.description
      quantity := it.quantity
      unitPrice := it.unitPrice })

/-- Handler of POST /api/service-provider/quotes/:id/invoice including
the authorizeRole service_provider gate: owning-provider check and the
accepted-status gate, then one transaction creating the invoice with
its items and setting the quote status to invoiced.  The
sequelize.transaction block is modelled as a single atomic state
transformation: its operations commit together or, on any earlier
return, not at all. -/
def createInvoiceFromQuote (user : Principal) (st : SPState) (now : Int) : InvoiceResult :=
  if user.role ≠ "service_provider" then
    ⟨.error (.forbidden "Insufficient permissions"), st⟩
  else if st.quote.serviceProviderId ≠ user.id then
    ⟨.error (.forbidden "You are not authorized to create an invoice for this quote"), st⟩
  else if st.quote.status ≠ "accepted" then
    ⟨.error (.badRequest "Cannot create invoice for quote with this status"), st⟩
  else
    ⟨.ok (),
     { quote := { st.quote with status := "invoiced" }
       nextInvoiceId := st.nextInvoiceId + 1
       invoices := st.invoices ++ [invoiceOfQuote st.quote st.nextInvoiceId now]
       invoiceItems := st.invoiceItems ++ invoiceItemsOfQuote st.quote st.nextInvoiceId }⟩

/-! Concrete fixtures used by witnesses and counterexamples. -/

/-- Sample stored booking: user 7 booked venue 3 of vendor 9 for the
instant 216000000 ms (2.5 days after epoch). -/
def sampleBooking : BookingRow :=
  { userId := 7, venueId := 3, vendorId := 9, date := 216000000, guestCount := 10,
    pricingType := "flat", flatPrice := some 100, perHeadPrice := none,
    minGuests := none, additionalServices := none, totalPrice := 100,
    status := "pending" }

/-- Per-head creation request from the spec example: 80 guests at rate
50 with minimum 50 and two additional services priced 500 and 300. -/
def perHeadBody : CreateBody :=
  { userId := some 2, venueId := some 3, vendorId := some 4, date := some 1000,
    guestCount := some 80, guests := none, pricingType := some "per_head",
    flatPrice := none, perHeadPrice := some 50, minGuests := some 50,
    additionalServices := some [⟨some 500⟩, ⟨some 300⟩], status := none,
    notes := none, totalPrice := none }

/-- Flat creation request whose date equals the current instant. -/
def dateNowBody : CreateBody :=
  { userId := some 2, venueId := some 3, vendorId := some 4, date := some 1000,
    guestCount := some 10, guests := none, pricingType := some "flat",
    flatPrice := some 100, perHeadPrice := none, minGuests := none,
    additionalServices := none, status := none, notes := none, totalPrice := none }

/-- Flat creation request carrying a client-chosen status confirmed. -/
def statusBody : CreateBody :=
  { userId := none, venueId := some 3, vendorId := some 4, date := some 1000,
    guestCount := some 10, guests := none, pricingType := some "flat",
    flatPrice := some 100, perHeadPrice := none, minGuests := none,
    additionalServices := none, status := some "confirmed", notes := none,
    totalPrice := none }

/-- Quote addressed to user 7 in status sent whose validUntil instant 5
is already past at time 10. -/
def expiredQuote : Quote :=
  { id := 11, serviceProviderId := 9, userId := 7, customerName := "c",
    customerEmail := "c@example.com", serviceDate := 950000000, totalAmount := 100,
    note := none, status := "sent", validUntil := 5, items := [] }

/-- Stored row of booking 12, owned by user 2, vendor 9, pending. -/
def bookingTwelveRow : Row :=
  [("id", .num 12), ("userId", .num 2), ("venueId", .num 3), ("vendorId", .num 9),
   ("status", .str "pending")]

/-! Theorems for the claims. -/

theorem clientStatus_cases (st : Option String) :
    (∀ s, st = some s → s ≠ "" →
      (if OptStrFalsy st then "pending" else st.getD "") = s) ∧
    (st = none → (if OptStrFalsy st then "pending" else st.getD "") = "pending") := by
  constructor
  · intro s hs hne
    subst hs
    rw [if_neg]
    · rfl
    · intro hf
      rcases hf with h | h
      · exact Option.noConfusion h
      · injection h with h3
        exact hne h3
  · intro hs
    subst hs
    rfl

theorem checkDate_ok (body : CreateBody) (now d : Int) (h : checkDate body now = .ok d) :
    body.date = some d ∧ now ≤ d := by
  unfold checkDate at h
  cases hbd : body.date with
  | none => rw [hbd] at h; exact Except.noConfusion h
  | some d0 =>
    by_cases hlt : d0 < now
    · rw [hbd] at h; simp [hlt] at h
    · rw [hbd] at h
      simp [hlt] at h
      subst h
      exact ⟨rfl, by omega⟩

theorem resolveGuestCount_pos (body : CreateBody) (g : Int)
    (h : resolveGuestCount body = .ok g) : 0 < g := by
  simp only [resolveGuestCount] at h
  split at h
  · exact Except.noConfusion h
  · split at h
    · exact Except.noConfusion h
    · rename_i hcond
      injection h with h2
      subst h2
      push_neg at hcond
      omega

theorem priceAndBuildRow_per_head (body : CreateBody) (userId venueId vendorId gc d : Int)
    (b : BookingRow) (h : priceAndBuildRow body userId venueId vendorId gc d = .ok b)
    (hpt : body.pricingType.getD "flat" = "per_head") :
    ∃ r : ℚ, body.perHeadPrice = some r ∧ 0 < r ∧
      (∃ m : Int, b.minGuests = some (m : ℚ) ∧ m ≤ b.guestCount ∧
        (OptRatFalsy body.minGuests → m = 1)) ∧
      b.guestCount = gc ∧
      b.totalPrice = (gc : ℚ) * r + svcSum body.additionalServices := by
  simp only [priceAndBuildRow] at h
  rw [hpt] at h
  rw [if_neg (by decide : ¬ ("per_head" : String) = "flat"), if_pos rfl] at h
  split at h
  · exact Except.noConfusion h
  · rename_i r hr
    split at h
    · exact Except.noConfusion h
    · rename_i hrle
      by_cases hf : OptRatFalsy body.minGuests
      · rw [if_pos hf] at h
        split at h
        · exact Except.noConfusion h
        · rename_i hml
          injection h with h2
          subst h2
          exact ⟨r, hr, lt_of_not_le hrle,
            ⟨1, rfl, by show (1 : Int) ≤ gc; omega, fun _ => rfl⟩, rfl, rfl⟩
      · rw [if_neg hf] at h
        split at h
        · exact Except.noConfusion h
        · rename_i hml
          injection h with h2
          subst h2
          refine ⟨r, hr, lt_of_not_le hrle,
            ⟨jsTrunc (body.minGuests.getD 0), rfl,
              by show jsTrunc (body.minGuests.getD 0) ≤ gc; omega, ?_⟩, rfl, rfl⟩
          intro hf2
          exact absurd hf2 hf

theorem priceAndBuildRow_fields (body : CreateBody) (userId venueId vendorId gc d : Int)
    (b : BookingRow) (h : priceAndBuildRow body userId venueId vendorId gc d = .ok b) :
    b.date = d ∧ b.guestCount = gc ∧
    (∀ s, body.status = some s → s ≠ "" → b.status = s) ∧
    (body.status = none → b.status = "pending") := by
  simp only [priceAndBuildRow] at h
  split at h
  · split at h
    · exact Except.noConfusion h
    · split at h
      · exact Except.noConfusion h
      · injection h with h2
        subst h2
        exact ⟨rfl, rfl, (clientStatus_cases body.status).1, (clientStatus_cases body.status).2⟩
  · split at h
    · split at h
      · exact Except.noConfusion h
      · split at h
        · exact Except.noConfusion h
        · split at h
          · split at h
            · exact Except.noConfusion h
            · injection h with h2
              subst h2
              exact ⟨rfl, rfl, (clientStatus_cases body.status).1,
                (clientStatus_cases body.status).2⟩
          · split at h
            · exact Except.noConfusion h
            · injection h with h2
              subst h2
              exact ⟨rfl, rfl, (clientStatus_cases body.status).1,
                (clientStatus_cases body.status).2⟩
    · exact Except.noConfusion h

/-- Claim C1: for every booking-creation input with per-head pricing
that results in a created booking, the persisted record carries a
positive rate r from the request, an integer guest count greater than
zero, a minimum m at least met by the guest count with m = 1 when
minGuests was not supplied, and totalPrice equal to guestCount times r
plus the sum of the additionalServices prices with a missing price
counted as 0. -/
theorem per_head_total_price (user : Principal) (body : CreateBody)
    (venueVendorId now : Int) (b : BookingRow)
    (hok : createBooking user body venueVendorId now = .ok b)
    (hpt : body.pricingType.getD "flat" = "per_head") :
    ∃ r : ℚ, body.perHeadPrice = some r ∧ 0 < r ∧ 0 < b.guestCount ∧
      (∃ m : Int, b.minGuests = some (m : ℚ) ∧ m ≤ b.guestCount ∧
        (body.minGuests = none → m = 1)) ∧
      b.totalPrice = (b.guestCount : ℚ) * r + svcSum body.additionalServices := by
  obtain ⟨u, ids, gc, d, hu, hv, hg, hd, hp⟩ :=
    (createBooking_ok_iff user body venueVendorId now b).mp hok
  obtain ⟨r, hr, hrpos, ⟨m, hm, hmle, hm1⟩, hgc, htot⟩ :=
    priceAndBuildRow_per_head body u ids.1 ids.2 gc d b hp hpt
  refine ⟨r, hr, hrpos, ?_, ⟨m, hm, hmle, fun hnone => hm1 (Or.inl hnone)⟩, ?_⟩
  · rw [hgc]
    exact resolveGuestCount_pos body gc hg
  · rw [hgc, htot]

/-- Witness for C1 at the spec example input: the created booking has
totalPrice equal to guest count times rate 50 plus the services sum. -/
theorem per_head_total_price_witness :
    ∃ b, createBooking ⟨1, "admin"⟩ perHeadBody 4 0 = .ok b ∧
      b.totalPrice = (b.guestCount : ℚ) * 50 + svcSum perHeadBody.additionalServices := by
  obtain ⟨b, hb⟩ : ∃ b, createBooking ⟨1, "admin"⟩ perHeadBody 4 0 = .ok b := ⟨_, rfl⟩
  obtain ⟨r, hr, -, -, -, htot⟩ :=
    per_head_total_price ⟨1, "admin"⟩ perHeadBody 4 0 b hb rfl
  have h50 : some (50 : ℚ) = some r := hr
  injection h50 with h50
  subst h50
  exact ⟨b, hb, htot⟩

/-- Claim C2 counterexample: an admin status update moves a booking
from cancelled to confirmed, so a transition does leave cancelled. -/
theorem cancelled_to_confirmed_by_admin :
    updateBookingStatus ⟨1, "admin"⟩ { sampleBooking with status := "cancelled" }
      (some "confirmed") 0
      = .ok { sampleBooking with status := "confirmed" } := by decide

/-- Claim C2 amended: the status-update handler checks only the target
status, never the current one, so transitions out of cancelled are
allowed: any principal passing the ownership check moves a cancelled
booking to pending, and an admin or the owning vendor moves it to
confirmed. -/
theorem cancelled_not_terminal (user : Principal) (b : BookingRow) (now : Int)
    (hc : b.status = "cancelled") (hown : CanAccessBooking user b) :
    updateBookingStatus user b (some "pending") now = .ok { b with status := "pending" } ∧
    (user.role = "admin" ∨ (user.role = "vendor" ∧ b.vendorId = user.id) →
      updateBookingStatus user b (some "confirmed") now
        = .ok { b with status := "confirmed" }) := by
  constructor
  · unfold updateBookingStatus
    simp [hc, hown]
  · intro hrole
    unfold updateBookingStatus
    rcases hrole with ha | ⟨hv, hbv⟩
    · simp [hc, hown, ha]
    · simp [hc, hown, hv, hbv]

/-- Witness for C2: the cancelled sample booking moves to pending and
to confirmed under admin updates. -/
theorem cancelled_not_terminal_witness :
    updateBookingStatus ⟨1, "admin"⟩ { sampleBooking with status := "cancelled" }
      (some "pending") 0 = .ok { sampleBooking with status := "pending" } ∧
    updateBookingStatus ⟨1, "admin"⟩ { sampleBooking with status := "cancelled" }
      (some "confirmed") 0 = .ok { sampleBooking with status := "confirmed" } := by
  have h := cancelled_not_terminal ⟨1, "admin"⟩ { sampleBooking with status := "cancelled" } 0
    rfl (by decide)
  exact ⟨h.1, h.2 (Or.inl rfl)⟩

/-- Claim C3 counterexample: rejecting an expired quote in status sent
succeeds and sets status rejected; the handler neither forces the
status to expired nor reports the expiry. -/
theorem reject_expired_quote_succeeds :
    rejectQuote ⟨7, "user"⟩ expiredQuote 10 =
      ⟨.ok (), { expiredQuote with status := "rejected" }⟩ := by decide

/-- Claim C3 amended: on an expired sent-or-viewed quote, accept by
the addressed user forces status expired and fails with the expiry
error, but reject performs no expiry check: it succeeds and sets
status rejected. -/
theorem expired_accept_reject_behavior (user : Principal) (q : Quote) (now : Int)
    (hrole : user.role = "user") (haddr : q.userId = user.id)
    (hst : q.status = "sent" ∨ q.status = "viewed") (hexp : q.validUntil < now) :
    acceptQuote user q now =
      ⟨.error (.badRequest "This quote has expired"), { q with status := "expired" }⟩ ∧
    rejectQuote user q now = ⟨.ok (), { q with status := "rejected" }⟩ := by
  constructor
  · unfold acceptQuote
    rcases hst with h | h
    · simp [hrole, haddr, h, hexp]
    · simp [hrole, haddr, h, hexp]
  · unfold rejectQuote
    rcases hst with h | h
    · simp [hrole, haddr, h]
    · simp [hrole, haddr, h]

/-- Witness for C3 at the expired sample quote. -/
theorem expired_accept_reject_behavior_witness :
    acceptQuote ⟨7, "user"⟩ expiredQuote 10 =
      ⟨.error (.badRequest "This quote has expired"), { expiredQuote with status := "expired" }⟩ ∧
    rejectQuote ⟨7, "user"⟩ expiredQuote 10 =
      ⟨.ok (), { expiredQuote with status := "rejected" }⟩ :=
  expired_accept_reject_behavior ⟨7, "user"⟩ expiredQuote 10 rfl rfl (Or.inl rfl) (by decide)

/-- Claim C4: invoice creation from a quote responds ok exactly when
the caller is the owning service provider and the quote is accepted;
on any failure the state is unchanged, so no Invoice or InvoiceItem is
created; on success the invoice, its items and the quote status change
to invoiced are committed together in one transaction. -/
theorem invoice_from_quote_all_or_nothing (user : Principal) (st : SPState) (now : Int) :
    ((createInvoiceFromQuote user st now).resp = .ok () ↔
      user.role = "service_provider" ∧ st.quote.serviceProviderId = user.id ∧
        st.quote.status = "accepted") ∧
    (createInvoiceFromQuote user st now).state =
      (if user.role = "service_provider" ∧ st.quote.serviceProviderId = user.id ∧
          st.quote.status = "accepted" then
        { quote := { st.quote with status := "invoiced" }
          nextInvoiceId := st.nextInvoiceId + 1
          invoices := st.invoices ++ [invoiceOfQuote st.quote st.nextInvoiceId now]
          invoiceItems := st.invoiceItems ++ invoiceItemsOfQuote st.quote st.nextInvoiceId }
      else st) := by
  unfold createInvoiceFromQuote
  by_cases h1 : user.role = "service_provider"
  · by_cases h2 : st.quote.serviceProviderId = user.id
    · by_cases h3 : st.quote.status = "accepted"
      · simp [h1, h2, h3]
      · simp [h1, h2, h3]
    · simp [h1, h2]
  · simp [h1]

/-- Claim C5 counterexample: a status update to confirmed on an
already-confirmed booking by the owning regular user succeeds as a
no-op instead of returning Forbidden. -/
theorem self_confirm_noop_by_owning_user :
    updateBookingStatus ⟨7, "user"⟩ { sampleBooking with status := "confirmed" }
      (some "confirmed") 0
      = .ok { sampleBooking with status := "confirmed" } := by decide

/-- Claim C5 amended: a status update to confirmed succeeds exactly
when the principal passes the ownership check and either is an admin
or the owning vendor, or the booking is already confirmed (the no-op
branch); a genuine transition to confirmed therefore requires admin or
the owning vendor, and every other principal gets Forbidden. -/
theorem confirm_update_succeeds_iff (user : Principal) (b : BookingRow) (now : Int) :
    (∃ b', updateBookingStatus user b (some "confirmed") now = .ok b') ↔
      (CanAccessBooking user b ∧
        (user.role = "admin" ∨ (user.role = "vendor" ∧ b.vendorId = user.id) ∨
          b.status = "confirmed")) := by
  unfold updateBookingStatus
  by_cases hown : CanAccessBooking user b
  · by_cases hst : b.status = "confirmed"
    · simp [hown, hst]
    · by_cases ha : user.role = "admin"
      · simp [hown, hst, ha]
      · by_cases hv : user.role = "vendor"
        · by_cases hbv : b.vendorId = user.id
          · simp [hown, hst, ha, hv, hbv]
          · simp [hown, hst, ha, hv, hbv]
        · simp [hown, hst, ha, hv]
  · simp [hown]

/-- Claim C6 counterexample: the owning user cancels a confirmed
booking whose date is 2.5 days away, which the claim says must fail
under the 3-day rule; the ceiling rounding in the handler counts 2.5
days as 3 and allows it. -/
theorem user_cancels_confirmed_at_two_and_half_days :
    updateBookingStatus ⟨7, "user"⟩ { sampleBooking with status := "confirmed" }
      (some "cancelled") 0
      = .ok { sampleBooking with status := "cancelled" } := by decide

/-- Claim C6 amended: a cancellation request on a non-cancelled
booking by a principal passing the ownership check is blocked exactly
when the booking is confirmed, the principal has role user, and the
ceiling day count is below 3, which happens exactly when the booking
date is at most two days worth of milliseconds after now; vendors and
admins are exempt and pending bookings cancel at any time. -/
theorem cancellation_notice_window (user : Principal) (b : BookingRow) (now : Int)
    (hown : CanAccessBooking user b) (hne : b.status ≠ "cancelled") :
    updateBookingStatus user b (some "cancelled") now =
      (if b.status = "confirmed" ∧ daysDifference b.date now < 3 ∧ user.role = "user" then
        .error (.forbidden "Cannot cancel confirmed booking with less than 3 days notice")
      else .ok { b with status := "cancelled" }) ∧
    (daysDifference b.date now < 3 ↔ (b.date : ℚ) - (now : ℚ) ≤ 2 * 86400000) := by
  refine ⟨?_, daysDifference_lt_three_iff b.date now⟩
  unfold updateBookingStatus
  simp [hown, hne]

/-- Witness for C6: the owning user is blocked from cancelling a
confirmed booking one day ahead. -/
theorem cancellation_notice_window_witness :
    updateBookingStatus ⟨7, "user"⟩ { sampleBooking with status := "confirmed", date := 86400000 }
      (some "cancelled") 0
      = .error (.forbidden "Cannot cancel confirmed booking with less than 3 days notice") := by
  have h := cancellation_notice_window ⟨7, "user"⟩
    { sampleBooking with status := "confirmed", date := 86400000 } 0 (by decide) (by decide)
  rw [h.1, if_pos]
  exact ⟨rfl, by decide, rfl⟩

/-- Claim C7: the create handler never reads a client-supplied
totalPrice, so two requests differing only in that field produce
identical outcomes and the persisted totalPrice is always the
server-computed value. -/
theorem totalPrice_client_noninterference (user : Principal) (body : CreateBody)
    (x : Option ℚ) (venueVendorId now : Int) :
    createBooking user { body with totalPrice := x } venueVendorId now =
      createBooking user body venueVendorId now := by
  cases body
  rfl

/-- Claim C8 counterexample: a creation request whose date equals the
current instant is accepted and persisted, not rejected; only strictly
past dates fail the date check. -/
theorem booking_date_equal_now_accepted :
    ∃ b, createBooking ⟨1, "admin"⟩ dateNowBody 4 1000 = .ok b ∧ b.date = 1000 :=
  ⟨_, rfl, rfl⟩

/-- Claim C8 amended: the handler rejects a booking date strictly
earlier than now, so every successfully created booking has a date at
least the creation instant; a date exactly equal to now passes. -/
theorem created_booking_date_not_past (user : Principal) (body : CreateBody)
    (venueVendorId now : Int) (b : BookingRow)
    (hok : createBooking user body venueVendorId now = .ok b) :
    body.date = some b.date ∧ now ≤ b.date := by
  obtain ⟨u, ids, gc, d, hu, hv, hg, hd, hp⟩ :=
    (createBooking_ok_iff user body venueVendorId now b).mp hok
  obtain ⟨hbd, hnd⟩ := checkDate_ok body now d hd
  obtain ⟨hdate, -, -, -⟩ := priceAndBuildRow_fields body u ids.1 ids.2 gc d b hp
  rw [hdate]
  exact ⟨hbd, hnd⟩

/-- Witness for C8 amended at a concrete successful creation. -/
theorem created_booking_date_not_past_witness :
    ∃ b, createBooking ⟨1, "admin"⟩ dateNowBody 4 500 = .ok b ∧
      dateNowBody.date = some b.date ∧ 500 ≤ b.date := by
  obtain ⟨b, hb⟩ : ∃ b, createBooking ⟨1, "admin"⟩ dateNowBody 4 500 = .ok b := ⟨_, rfl⟩
  obtain ⟨h1, h2⟩ := created_booking_date_not_past ⟨1, "admin"⟩ dateNowBody 4 500 b hb
  exact ⟨b, hb, h1, h2⟩

/-- Claim C9: soft deletion by an admin with a reason keeps the
booking row and sets its status to cancelled, but the deletedBy,
deletedAt and deletionReason fields passed by the handler are silently
dropped because the Booking model defines no such attributes, so the
stored row carries no deletion metadata, contradicting the claim. -/
theorem delete_booking_drops_deletion_metadata :
    (deleteBooking ⟨1, "admin"⟩ bookingTwelveRow (some "test") 1700000000000).map
      (fun r => (getField r "status", getField r "deletedBy", getField r "deletedAt",
        getField r "deletionReason"))
      = .ok (some (.str "cancelled"), none, none, none) := by decide

/-- Claim C10: whenever a creation request succeeds, the persisted
status is exactly the nonempty status string supplied by the client,
for any principal and with no state-machine check, and pending only
when none was supplied. -/
theorem created_status_passthrough (user : Principal) (body : CreateBody)
    (venueVendorId now : Int) (b : BookingRow)
    (hok : createBooking user body venueVendorId now = .ok b) :
    (∀ s, body.status = some s → s ≠ "" → b.status = s) ∧
    (body.status = none → b.status = "pending") := by
  obtain ⟨u, ids, gc, d, hu, hv, hg, hd, hp⟩ :=
    (createBooking_ok_iff user body venueVendorId now b).mp hok
  obtain ⟨-, -, h1, h2⟩ := priceAndBuildRow_fields body u ids.1 ids.2 gc d b hp
  exact ⟨h1, h2⟩

/-- Witness for C10: a regular user creates a booking directly in
status confirmed. -/
theorem created_status_passthrough_witness :
    ∃ b, createBooking ⟨7, "user"⟩ statusBody 4 500 = .ok b ∧ b.status = "confirmed" := by
  obtain ⟨b, hb⟩ : ∃ b, createBooking ⟨7, "user"⟩ statusBody 4 500 = .ok b := ⟨_, rfl⟩
  exact ⟨b, hb, (created_status_passthrough ⟨7, "user"⟩ statusBody 4 500 b hb).1
    "confirmed" rfl (by decide)⟩

end Banquet
